import Mathlib

/-!
Verification development for the MBA-USP-TCC project-monitoring pipeline.

This file gives a shallow embedding, in Lean 4, of the deterministic core of
the repository: the health classifiers of `schedule_agent_updated.py` and
`cost_agent_updated.py`, the SPI/CPI metric derivation step of the same
agents, the label-based field extractors, the PMBOK guard-rail rule engine of
`pmbok_guard_rails.py`, and the pattern-based metric extraction of
`Agentes/nlp_processor.py`.  Python floats are modelled as rationals (`ℚ`),
Python `None`-able values as `Option`, Python exceptions as `Except`.
-/

/-! ## Health classification
Embedding of `ScheduleAgent._evaluate_schedule_health` (lines 192-232 of
`schedule_agent_updated.py`) and `CostAgent._evaluate_cost_health`
(lines 201-241 of `cost_agent_updated.py`).  Only the `status` field of the
returned dictionary is modelled; the `description` value is a formatted
message string carrying the same band decision and no further data. -/

/-- Status banding of `_evaluate_schedule_health`: the `if/elif` chain over
the SPI, with `None` mapped to `"unknown"`. -/
def evaluate_schedule_health : Option ℚ → String
  | none => "unknown"
  | some spi =>
    if spi ≥ 105/100 then "excellent"
    else if spi ≥ 95/100 then "good"
    else if spi ≥ 85/100 then "warning"
    else if spi ≥ 7/10 then "critical"
    else "severe"

/-- Status banding of `_evaluate_cost_health`: the `if/elif` chain over
the CPI, with `None` mapped to `"unknown"`. -/
def evaluate_cost_health : Option ℚ → String
  | none => "unknown"
  | some cpi =>
    if cpi ≥ 11/10 then "excellent"
    else if cpi ≥ 1 then "good"
    else if cpi ≥ 9/10 then "warning"
    else if cpi ≥ 8/10 then "critical"
    else "severe"

/-! ## Status records and metric derivation
The dictionaries built by `_extract_schedule_status` / `_extract_cost_status`
and enriched by `analyze_schedule_file` / `analyze_cost_file`. -/

/-- The `schedule_status` dictionary of `ScheduleAgent`: every field that
`_extract_schedule_status` can set.  Absent keys are `none`; the two task
lists are always present (set unconditionally at the end of extraction). -/
structure ScheduleStatus where
  status : Option String := none
  percentual_conclusao : Option ℚ := none
  data_inicio : Option String := none
  data_termino_planejada : Option String := none
  data_termino_real : Option String := none
  atraso_dias : Option ℤ := none
  motivo_atraso : Option String := none
  spi : Option ℚ := none
  valor_planejado : Option ℚ := none
  valor_agregado : Option ℚ := none
  tarefas_criticas : List String := []
  tarefas_atrasadas : List String := []
  deriving DecidableEq, Repr

/-- The `cost_status` dictionary of `CostAgent`: every field that
`_extract_cost_status` can set.  A cost category is a name with a value and
an optional percentage. -/
structure CostStatus where
  orcamento_inicial : Option ℚ := none
  custo_real : Option ℚ := none
  desvio_orcamento : Option ℚ := none
  cpi : Option ℚ := none
  valor_agregado : Option ℚ := none
  estimativa_conclusao : Option ℚ := none
  estimativa_termino : Option ℚ := none
  variacao_termino : Option ℚ := none
  categorias_custos : List (String × ℚ × Option ℚ) := []
  deriving DecidableEq, Repr

/-- Lines 50-57 of `schedule_agent_updated.py`: if `spi` is absent and both
`valor_agregado` and `valor_planejado` are present with the planned value
positive, store `spi = ev / pv`; otherwise leave the record unchanged.
Division never happens on a zero, negative or absent denominator. -/
def deriveSpi (st : ScheduleStatus) : ScheduleStatus :=
  match st.spi with
  | some _ => st
  | none =>
    match st.valor_agregado, st.valor_planejado with
    | some ev, some pv => if pv > 0 then { st with spi := some (ev / pv) } else st
    | _, _ => st

/-- Lines 50-56 of `cost_agent_updated.py`: if `cpi` is absent and both
`valor_agregado` and `custo_real` are present with the actual cost positive,
store `cpi = ev / ac`; otherwise leave the record unchanged. -/
def deriveCpi (st : CostStatus) : CostStatus :=
  match st.cpi with
  | some _ => st
  | none =>
    match st.valor_agregado, st.custo_real with
    | some ev, some ac => if ac > 0 then { st with cpi := some (ev / ac) } else st
    | _, _ => st

/-! ### Claims C1, C2, C6 -/

/-- C1.  Health classification follows the ordered banding with inclusive
lower bounds, first matching band winning: an absent index gives `unknown`
in both domains; for cost, CPI ≥ 1.10 gives `excellent`, 1.00 ≤ CPI < 1.10
`good`, 0.90 ≤ CPI < 1.00 `warning`, 0.80 ≤ CPI < 0.90 `critical`,
CPI < 0.80 `severe`; for schedule, SPI ≥ 1.05 gives `excellent`,
0.95 ≤ SPI < 1.05 `good`, 0.85 ≤ SPI < 0.95 `warning`, 0.70 ≤ SPI < 0.85
`critical`, SPI < 0.70 `severe`; in particular CPI = 1.10 is `excellent`,
CPI = 1.099999 is `good`, SPI = 0.70 is `critical` and SPI = 0.699999 is
`severe`.  Stated for every rational index value. -/
theorem health_banding :
    evaluate_cost_health none = "unknown" ∧
    evaluate_schedule_health none = "unknown" ∧
    (∀ q : ℚ,
      (11/10 ≤ q → evaluate_cost_health (some q) = "excellent") ∧
      (1 ≤ q → q < 11/10 → evaluate_cost_health (some q) = "good") ∧
      (9/10 ≤ q → q < 1 → evaluate_cost_health (some q) = "warning") ∧
      (8/10 ≤ q → q < 9/10 → evaluate_cost_health (some q) = "critical") ∧
      (q < 8/10 → evaluate_cost_health (some q) = "severe")) ∧
    (∀ q : ℚ,
      (105/100 ≤ q → evaluate_schedule_health (some q) = "excellent") ∧
      (95/100 ≤ q → q < 105/100 → evaluate_schedule_health (some q) = "good") ∧
      (85/100 ≤ q → q < 95/100 → evaluate_schedule_health (some q) = "warning") ∧
      (7/10 ≤ q → q < 85/100 → evaluate_schedule_health (some q) = "critical") ∧
      (q < 7/10 → evaluate_schedule_health (some q) = "severe")) ∧
    evaluate_cost_health (some (11/10)) = "excellent" ∧
    evaluate_cost_health (some (1099999/1000000)) = "good" ∧
    evaluate_schedule_health (some (7/10)) = "critical" ∧
    evaluate_schedule_health (some (699999/1000000)) = "severe" := by
  refine ⟨rfl, rfl, fun q => ⟨?_, ?_, ?_, ?_, ?_⟩, fun q => ⟨?_, ?_, ?_, ?_, ?_⟩,
    by norm_num [evaluate_cost_health], by norm_num [evaluate_cost_health],
    by norm_num [evaluate_schedule_health], by norm_num [evaluate_schedule_health]⟩ <;>
    intros <;> simp only [evaluate_cost_health, evaluate_schedule_health] <;>
    split_ifs <;> first | rfl | linarith

/-- Witness for C1: the banding theorem applied at CPI = 0.95 (warning band),
with the hypotheses discharged concretely. -/
theorem health_banding_witness :
    (9/10 : ℚ) ≤ 95/100 ∧ (95/100 : ℚ) < 1 ∧
      evaluate_cost_health (some (95/100)) = "warning" :=
  ⟨by norm_num, by norm_num,
    ((health_banding.2.2.1 (95/100)).2.2.1 (by norm_num) (by norm_num))⟩

/-- C2.  Metric derivation: if `spi` is absent and earned value and planned
value are present with planned value positive, the derivation step sets
`spi = ev / pv`; symmetrically for `cpi = ev / ac` in the cost pipeline;
whenever the denominator is zero or absent the indicator remains absent.
The embedded step is a total function on records, so no exception, infinity
or NaN can arise. -/
theorem metric_derivation :
    ∀ (st : ScheduleStatus) (cst : CostStatus) (ev pv ac : ℚ),
      (st.spi = none → st.valor_agregado = some ev → st.valor_planejado = some pv →
        0 < pv → (deriveSpi st).spi = some (ev / pv)) ∧
      (st.spi = none → st.valor_planejado = none ∨ st.valor_planejado = some 0 →
        (deriveSpi st).spi = none) ∧
      (cst.cpi = none → cst.valor_agregado = some ev → cst.custo_real = some ac →
        0 < ac → (deriveCpi cst).cpi = some (ev / ac)) ∧
      (cst.cpi = none → cst.custo_real = none ∨ cst.custo_real = some 0 →
        (deriveCpi cst).cpi = none) := by
  intro st cst ev pv ac
  refine ⟨?_, ?_, ?_, ?_⟩
  · intro h0 h1 h2 h3
    simp only [deriveSpi, h0, h1, h2, if_pos h3]
  · intro h0 h1
    rcases h1 with h1 | h1 <;>
      · simp only [deriveSpi, h0, h1]
        cases hva : st.valor_agregado <;> simp [h0]
  · intro h0 h1 h2 h3
    simp only [deriveCpi, h0, h1, h2, if_pos h3]
  · intro h0 h1
    rcases h1 with h1 | h1 <;>
      · simp only [deriveCpi, h0, h1]
        cases hva : cst.valor_agregado <;> simp [h0]

/-- A concrete schedule-status record with EV = 212500 and PV = 250000 and
no explicit SPI, as in the derivation example of the spec. -/
def scheduleStatusEx : ScheduleStatus :=
  { spi := none, valor_agregado := some 212500, valor_planejado := some 250000 }

/-- Witness for C2: the derivation theorem applied to the record with
EV = 212500, PV = 250000 (giving SPI = 0.85). -/
theorem metric_derivation_witness :
    (deriveSpi scheduleStatusEx).spi = some (212500 / 250000) :=
  (metric_derivation scheduleStatusEx {} 212500 250000 230000).1 rfl rfl rfl
    (by norm_num)

/-- C6.  Metric derivation is idempotent: running the SPI/CPI derivation step
twice yields exactly the same record as running it once, because the step
only writes an indicator that is absent. -/
theorem metric_derivation_idempotent :
    ∀ (st : ScheduleStatus) (cst : CostStatus),
      deriveSpi (deriveSpi st) = deriveSpi st ∧
      deriveCpi (deriveCpi cst) = deriveCpi cst := by
  intro st cst
  constructor
  · cases hspi : st.spi with
    | some v => simp [deriveSpi, hspi]
    | none =>
      cases hev : st.valor_agregado with
      | none => simp [deriveSpi, hspi, hev]
      | some ev =>
        cases hpv : st.valor_planejado with
        | none => simp [deriveSpi, hspi, hev, hpv]
        | some pv =>
          by_cases hpos : pv > 0
          · simp [deriveSpi, hspi, hev, hpv, hpos]
          · simp [deriveSpi, hspi, hev, hpv, hpos]
  · cases hcpi : cst.cpi with
    | some v => simp [deriveCpi, hcpi]
    | none =>
      cases hev : cst.valor_agregado with
      | none => simp [deriveCpi, hcpi, hev]
      | some ev =>
        cases hac : cst.custo_real with
        | none => simp [deriveCpi, hcpi, hev, hac]
        | some ac =>
          by_cases hpos : ac > 0
          · simp [deriveCpi, hcpi, hev, hac, hpos]
          · simp [deriveCpi, hcpi, hev, hac, hpos]

/-! ## PMBOK guard rails — data model
Embedding of `pmbok_guard_rails.py`.  The `data` dictionary passed to
`PMBOKGuardRails.validate` is modelled by `GRData`: one optional field per
key the rule conditions read, plus `reqMet`, the truthiness of the
`requirement_<rule_id>_met` satisfaction flags (`data.get(key, False)`
evaluates to `False` for an absent key, so absence and falsy values
coincide).  Timestamps (`validation_date`) are external and elided. -/

structure GRData where
  spi : Option ℚ := none
  atraso_dias : Option ℚ := none
  duracao_planejada : Option ℚ := none
  replanejamento : Option Bool := none
  tarefas_criticas : Option (List String) := none
  cpi : Option ℚ := none
  desvio_orcamento : Option ℚ := none
  realocacao_orcamento : Option ℚ := none
  mudanca_escopo : Option String := none
  impacto_cronograma : Option ℚ := none
  impacto_custo_percentual : Option ℚ := none
  num_mudancas_escopo : Option ℚ := none
  riscos_altos : Option (List String) := none
  riscos_criticos : Option (List String) := none
  novos_riscos_altos : Option (List String) := none
  riscos_alta_exposicao : Option (List String) := none
  reqMet : String → Bool := fun _ => false

/-- A guard-rail rule record: `{id, name, description, condition, action,
message}`.  A condition that raises in Python is modelled by an
`Except.error` result carrying the exception text; the catalog conditions
below are total and always return `Except.ok`. -/
structure Rule where
  id : String
  name : String
  description : String
  condition : GRData → Except String Bool
  action : String
  message : String

/-- One entry of the `messages` list of a validation result for a known
domain: the `{rule_id, rule_name, message, action}` dictionary. -/
structure FiredMessage where
  rule_id : String
  rule_name : String
  message : String
  action : String
  deriving DecidableEq, Repr

/-- A message of `PMBOKGuardRails.validate`: known domains produce
`record` dictionaries, the unknown-domain branch produces a `bare`
string. -/
inductive VMessage where
  | record (m : FiredMessage)
  | bare (s : String)
  deriving DecidableEq, Repr

/-- The result of `PMBOKGuardRails.validate` (timestamp elided). -/
structure ValidationResult where
  valid : Bool
  messages : List VMessage
  deriving DecidableEq, Repr

/-- The result of `PMBOKGuardRails.validate_recommendations` (timestamp
elided). -/
structure RecValidation where
  valid : Bool
  missing_topics : List String
  additional_recommendations : List String
  validation_messages : List VMessage
  deriving DecidableEq, Repr

instance {ε α : Type} [DecidableEq ε] [DecidableEq α] : DecidableEq (Except ε α)
  | .ok a, .ok b =>
    if h : a = b then .isTrue (by rw [h]) else .isFalse (by simp [h])
  | .ok _, .error _ => .isFalse (by simp)
  | .error _, .ok _ => .isFalse (by simp)
  | .error a, .error b =>
    if h : a = b then .isTrue (by rw [h]) else .isFalse (by simp [h])

/-- `data.get(k) is not None and data.get(k) < c` for a numeric key. -/
def optLtQ (x : Option ℚ) (c : ℚ) : Bool :=
  match x with
  | some v => decide (v < c)
  | none => false

/-- `data.get(k) is not None and data.get(k) > c` for a numeric key. -/
def optGtQ (x : Option ℚ) (c : ℚ) : Bool :=
  match x with
  | some v => decide (v > c)
  | none => false

/-- `data.get(k) is not None and len(data.get(k)) > 0` for a list key. -/
def optListNonempty (x : Option (List String)) : Bool :=
  match x with
  | some l => decide (l.length > 0)
  | none => false

/-! ## PMBOK guard rails — rule catalogs
The four catalogs of `_load_schedule_rules`, `_load_cost_rules`,
`_load_scope_rules` and `_load_risk_rules`, one definition per rule, in
catalog order. -/

def ruleSCH001 : Rule where
  id := "SCH-001"
  name := "Notificação para SPI crítico"
  description := "Qualquer SPI < 0.8 requer notificação imediata ao gerente do projeto"
  condition := fun d => .ok (optLtQ d.spi (8/10))
  action := "notify"
  message := "ALERTA CRÍTICO: O SPI está abaixo de 0.8, indicando atraso significativo no cronograma. Notifique imediatamente o gerente do projeto."

def ruleSCH002 : Rule where
  id := "SCH-002"
  name := "Plano de recuperação para SPI baixo"
  description := "Qualquer SPI < 0.9 requer um plano de recuperação documentado"
  condition := fun d => .ok (optLtQ d.spi (9/10))
  action := "require"
  message := "REQUISITO: O SPI está abaixo de 0.9. Um plano de recuperação documentado é necessário."

def ruleSCH003 : Rule where
  id := "SCH-003"
  name := "Aprovação para extensão de prazo"
  description := "Extensões de prazo > 10% da duração original requerem aprovação formal"
  condition := fun d => .ok
    (match d.atraso_dias, d.duracao_planejada with
      | some a, some dur => decide (a > (1/10 : ℚ) * dur)
      | _, _ => false)
  action := "require"
  message := "REQUISITO: A extensão de prazo excede 10% da duração original do projeto. Aprovação formal é necessária."

def ruleSCH004 : Rule where
  id := "SCH-004"
  name := "Revisão da linha de base para replanejamento"
  description := "Replanejamento de cronograma requer revisão da linha de base"
  condition := fun d => .ok
    (match d.replanejamento with
      | some true => true
      | _ => false)
  action := "require"
  message := "REQUISITO: O replanejamento do cronograma requer revisão formal da linha de base."

def ruleSCH005 : Rule where
  id := "SCH-005"
  name := "Monitoramento diário para tarefas críticas"
  description := "Tarefas críticas devem ter monitoramento diário quando SPI < 0.9"
  condition := fun d => .ok (optLtQ d.spi (9/10) && optListNonempty d.tarefas_criticas)
  action := "recommend"
  message := "RECOMENDAÇÃO: Implemente monitoramento diário para todas as tarefas críticas devido ao SPI baixo."

def ruleCOST001 : Rule where
  id := "COST-001"
  name := "Notificação para CPI crítico"
  description := "Qualquer CPI < 0.8 requer notificação imediata ao gerente do projeto"
  condition := fun d => .ok (optLtQ d.cpi (8/10))
  action := "notify"
  message := "ALERTA CRÍTICO: O CPI está abaixo de 0.8, indicando desvio significativo nos custos. Notifique imediatamente o gerente do projeto."

def ruleCOST002 : Rule where
  id := "COST-002"
  name := "Plano de recuperação para CPI baixo"
  description := "Qualquer CPI < 0.9 requer um plano de recuperação documentado"
  condition := fun d => .ok (optLtQ d.cpi (9/10))
  action := "require"
  message := "REQUISITO: O CPI está abaixo de 0.9. Um plano de recuperação documentado é necessário."

def ruleCOST003 : Rule where
  id := "COST-003"
  name := "Aprovação para gastos adicionais"
  description := "Gastos adicionais > 10% do orçamento requerem aprovação formal"
  condition := fun d => .ok (optGtQ d.desvio_orcamento 10)
  action := "require"
  message := "REQUISITO: Os gastos adicionais excedem 10% do orçamento. Aprovação formal é necessária."

def ruleCOST004 : Rule where
  id := "COST-004"
  name := "Aprovação para realocação de orçamento"
  description := "Realocação de orçamento entre categorias > 5% requer aprovação"
  condition := fun d => .ok (optGtQ d.realocacao_orcamento 5)
  action := "require"
  message := "REQUISITO: A realocação de orçamento entre categorias excede 5%. Aprovação formal é necessária."

def ruleCOST005 : Rule where
  id := "COST-005"
  name := "Recálculo semanal da EAC"
  description := "Estimativa no término (EAC) deve ser recalculada semanalmente quando CPI < 0.9"
  condition := fun d => .ok (optLtQ d.cpi (9/10))
  action := "recommend"
  message := "RECOMENDAÇÃO: Recalcule a Estimativa no Término (EAC) semanalmente devido ao CPI baixo."

def ruleSCOPE001 : Rule where
  id := "SCOPE-001"
  name := "Documentação formal para mudanças de escopo"
  description := "Todas as mudanças de escopo requerem documentação formal"
  condition := fun d => .ok
    (match d.mudanca_escopo with
      | some s => decide (s = "Sim")
      | none => false)
  action := "require"
  message := "REQUISITO: Todas as mudanças de escopo requerem documentação formal."

def ruleSCOPE002 : Rule where
  id := "SCOPE-002"
  name := "Revisão da linha de base para impacto no cronograma"
  description := "Mudanças com impacto no cronograma > 10 dias requerem revisão da linha de base"
  condition := fun d => .ok (optGtQ d.impacto_cronograma 10)
  action := "require"
  message := "REQUISITO: A mudança de escopo tem impacto significativo no cronograma. Revisão da linha de base é necessária."

def ruleSCOPE003 : Rule where
  id := "SCOPE-003"
  name := "Revisão do orçamento para impacto no custo"
  description := "Mudanças com impacto no custo > 5% requerem revisão do orçamento"
  condition := fun d => .ok (optGtQ d.impacto_custo_percentual 5)
  action := "require"
  message := "REQUISITO: A mudança de escopo tem impacto significativo no custo. Revisão do orçamento é necessária."

def ruleSCOPE004 : Rule where
  id := "SCOPE-004"
  name := "Revisão do plano para múltiplas mudanças"
  description := "Mais de 3 mudanças de escopo requerem revisão do plano de gerenciamento do projeto"
  condition := fun d => .ok (optGtQ d.num_mudancas_escopo 3)
  action := "require"
  message := "REQUISITO: Múltiplas mudanças de escopo foram identificadas. Revisão do plano de gerenciamento do projeto é necessária."

def ruleSCOPE005 : Rule where
  id := "SCOPE-005"
  name := "Análise de impacto para mudanças de escopo"
  description := "Todas as mudanças de escopo devem incluir análise de impacto em cronograma e custos"
  condition := fun d => .ok
    (match d.mudanca_escopo with
      | some s => decide (s = "Sim")
      | none => false)
  action := "require"
  message := "REQUISITO: Todas as mudanças de escopo devem incluir análise de impacto em cronograma e custos."

def ruleRISK001 : Rule where
  id := "RISK-001"
  name := "Planos de mitigação para riscos altos"
  description := "Riscos com nível \u0027Alto\u0027 requerem planos de mitigação documentados"
  condition := fun d => .ok (optListNonempty d.riscos_altos)
  action := "require"
  message := "REQUISITO: Todos os riscos de nível \u0027Alto\u0027 requerem planos de mitigação documentados."

def ruleRISK002 : Rule where
  id := "RISK-002"
  name := "Planos de contingência para riscos críticos"
  description := "Riscos com probabilidade >= 4 e impacto >= 4 requerem planos de contingência"
  condition := fun d => .ok (optListNonempty d.riscos_criticos)
  action := "require"
  message := "REQUISITO: Todos os riscos críticos (probabilidade >= 4 e impacto >= 4) requerem planos de contingência."

def ruleRISK003 : Rule where
  id := "RISK-003"
  name := "Revisão quinzenal do registro de riscos"
  description := "Registro de riscos deve ser revisado pelo menos quinzenalmente"
  condition := fun _ => .ok true
  action := "recommend"
  message := "RECOMENDAÇÃO: O registro de riscos deve ser revisado pelo menos quinzenalmente."

def ruleRISK004 : Rule where
  id := "RISK-004"
  name := "Notificação para novos riscos altos"
  description := "Novos riscos identificados com nível \u0027Alto\u0027 requerem notificação imediata ao gerente do projeto"
  condition := fun d => .ok (optListNonempty d.novos_riscos_altos)
  action := "notify"
  message := "ALERTA: Novos riscos de nível \u0027Alto\u0027 foram identificados. Notifique imediatamente o gerente do projeto."

def ruleRISK005 : Rule where
  id := "RISK-005"
  name := "Monitoramento semanal para riscos de alta exposição"
  description := "Riscos com valor de exposição (probabilidade * impacto) >= 12 requerem monitoramento semanal"
  condition := fun d => .ok (optListNonempty d.riscos_alta_exposicao)
  action := "recommend"
  message := "RECOMENDAÇÃO: Implemente monitoramento semanal para todos os riscos com valor de exposição >= 12."

def schedule_rules : List Rule :=
  [ruleSCH001, ruleSCH002, ruleSCH003, ruleSCH004, ruleSCH005]

def cost_rules : List Rule :=
  [ruleCOST001, ruleCOST002, ruleCOST003, ruleCOST004, ruleCOST005]

def scope_rules : List Rule :=
  [ruleSCOPE001, ruleSCOPE002, ruleSCOPE003, ruleSCOPE004, ruleSCOPE005]

def risk_rules : List Rule :=
  [ruleRISK001, ruleRISK002, ruleRISK003, ruleRISK004, ruleRISK005]

/-! ## PMBOK guard rails — validation -/

/-- The four keys of `self.rules` built in `PMBOKGuardRails.__init__`. -/
def knownDomains : List String := ["cronograma", "custos", "escopo", "riscos"]

/-- The catalog lookup `self.rules[domain]`: `none` models
`domain not in self.rules`. -/
def rulesFor (domain : String) : Option (List Rule) :=
  if domain = "cronograma" then some schedule_rules
  else if domain = "custos" then some cost_rules
  else if domain = "escopo" then some scope_rules
  else if domain = "riscos" then some risk_rules
  else none

/-- `PMBOKGuardRails._check_requirement_met`:
`data.get(f"requirement_{rule.id}_met", False)` read as a truth value. -/
def check_requirement_met (rule : Rule) (data : GRData) : Bool :=
  data.reqMet ("requirement_" ++ rule.id ++ "_met")

/-- The rule loop of `PMBOKGuardRails.validate` (lines 243-266): apply the
rules in catalog order, collecting the fired messages and the `valid` flag.
A condition returning `Except.error e` (a Python exception) contributes the
synthetic `error`-action message and leaves `valid` untouched. -/
def applyRules : List Rule → GRData → List FiredMessage × Bool
  | [], _ => ([], true)
  | r :: rs, data =>
    let rest := applyRules rs data
    match r.condition data with
    | .ok true =>
      (⟨r.id, r.name, r.message, r.action⟩ :: rest.1,
        if r.action = "require" ∧ check_requirement_met r data = false
        then false else rest.2)
    | .ok false => rest
    | .error e =>
      (⟨r.id, r.name, "Erro ao aplicar regra: " ++ e, "error"⟩ :: rest.1, rest.2)

/-- `PMBOKGuardRails.validate`: unknown domains yield the invalid result
with the single bare message `Domínio inválido: <domain>`; known domains
run the rule loop. -/
def validate (domain : String) (data : GRData) : ValidationResult :=
  match rulesFor domain with
  | none => ⟨false, [VMessage.bare ("Domínio inválido: " ++ domain)]⟩
  | some rules =>
    let res := applyRules rules data
    ⟨res.2, res.1.map VMessage.record⟩

/-! ## Rule-engine lemmas -/

/-- The message one rule contributes to the result, if any: the normal fired
message on `ok true`, nothing on `ok false`, the synthetic error message on
`error`. -/
def msgOf (data : GRData) (r : Rule) : Option FiredMessage :=
  match r.condition data with
  | .ok true => some ⟨r.id, r.name, r.message, r.action⟩
  | .ok false => none
  | .error e => some ⟨r.id, r.name, "Erro ao aplicar regra: " ++ e, "error"⟩

theorem applyRules_messages (data : GRData) :
    ∀ rules : List Rule, (applyRules rules data).1 = rules.filterMap (msgOf data) := by
  intro rules
  induction rules with
  | nil => rfl
  | cons r rs ih =>
    cases hc : r.condition data with
    | ok b => cases b <;> simp [applyRules, msgOf, hc, ih]
    | error e => simp [applyRules, msgOf, hc, ih]

theorem applyRules_valid_iff (data : GRData) :
    ∀ rules : List Rule,
      ((applyRules rules data).2 = true ↔
        ∀ r ∈ rules, r.condition data = .ok true → r.action = "require" →
          check_requirement_met r data = true) := by
  intro rules
  induction rules with
  | nil => simp [applyRules]
  | cons r rs ih =>
    cases hc : r.condition data with
    | error e =>
      simp only [applyRules, hc]
      rw [ih]
      constructor
      · intro h r' hr' hcond hact
        rcases List.mem_cons.mp hr' with rfl | hr'
        · rw [hc] at hcond; cases hcond
        · exact h r' hr' hcond hact
      · intro h r' hr' hcond hact
        exact h r' (List.mem_cons_of_mem _ hr') hcond hact
    | ok b =>
      cases b with
      | false =>
        simp only [applyRules, hc]
        rw [ih]
        constructor
        · intro h r' hr' hcond hact
          rcases List.mem_cons.mp hr' with rfl | hr'
          · rw [hc] at hcond; simp at hcond
          · exact h r' hr' hcond hact
        · intro h r' hr' hcond hact
          exact h r' (List.mem_cons_of_mem _ hr') hcond hact
      | true =>
        simp only [applyRules, hc]
        by_cases hbad : r.action = "require" ∧ check_requirement_met r data = false
        · rw [if_pos hbad]
          constructor
          · intro h; exact absurd h (by simp)
          · intro h
            exact absurd (h r (List.mem_cons_self r rs) hc hbad.1)
              (by simp [hbad.2])
        · rw [if_neg hbad]
          rw [ih]
          constructor
          · intro h r' hr' hcond hact
            rcases List.mem_cons.mp hr' with rfl | hr'
            · cases hck : check_requirement_met r' data with
              | true => rfl
              | false => exact absurd ⟨hact, hck⟩ hbad
            · exact h r' hr' hcond hact
          · intro h r' hr' hcond hact
            exact h r' (List.mem_cons_of_mem _ hr') hcond hact

theorem applyRules_append (data : GRData) :
    ∀ l1 l2 : List Rule,
      (applyRules (l1 ++ l2) data).1 =
        (applyRules l1 data).1 ++ (applyRules l2 data).1 := by
  intro l1 l2
  induction l1 with
  | nil => simp [applyRules]
  | cons r rs ih =>
    cases hc : r.condition data with
    | ok b => cases b <;> simp [applyRules, hc, ih]
    | error e => simp [applyRules, hc, ih]

theorem rulesFor_cronograma : rulesFor "cronograma" = some schedule_rules := rfl

theorem rulesFor_custos : rulesFor "custos" = some cost_rules := rfl

theorem rulesFor_escopo : rulesFor "escopo" = some scope_rules := rfl

theorem rulesFor_riscos : rulesFor "riscos" = some risk_rules := rfl

/-! ### Claims C3, C4, C8 -/

/-- C3.  For every known domain and every data mapping, the `valid` field of
the validation result is true if and only if every rule whose condition
fires with action `require` has its satisfaction flag
`requirement_<rule_id>_met` truthy in the input data; fired `notify` and
`recommend` rules and non-fired rules never make the result invalid. -/
theorem rule_engine_valid_iff :
    ∀ domain ∈ knownDomains, ∀ data : GRData,
      ((validate domain data).valid = true ↔
        ∀ r ∈ (rulesFor domain).getD [], r.condition data = .ok true →
          r.action = "require" → check_requirement_met r data = true) := by
  intro domain hdom data
  simp only [knownDomains, List.mem_cons, List.not_mem_nil, or_false] at hdom
  rcases hdom with rfl | rfl | rfl | rfl
  · simp only [validate, rulesFor_cronograma, Option.getD_some]
    exact applyRules_valid_iff data schedule_rules
  · simp only [validate, rulesFor_custos, Option.getD_some]
    exact applyRules_valid_iff data cost_rules
  · simp only [validate, rulesFor_escopo, Option.getD_some]
    exact applyRules_valid_iff data scope_rules
  · simp only [validate, rulesFor_riscos, Option.getD_some]
    exact applyRules_valid_iff data risk_rules

/-- A concrete guard-rail data record with SPI = 0.75 and no satisfaction
flags set. -/
def dataSpi075 : GRData := { spi := some (75/100) }

/-- Witness for C3: the iff applied to the schedule domain with
SPI = 0.75. -/
theorem rule_engine_valid_iff_witness :
    "cronograma" ∈ knownDomains ∧
      ((validate "cronograma" dataSpi075).valid = true ↔
        ∀ r ∈ (rulesFor "cronograma").getD [],
          r.condition dataSpi075 = .ok true → r.action = "require" →
            check_requirement_met r dataSpi075 = true) :=
  ⟨by simp [knownDomains],
    rule_engine_valid_iff "cronograma" (by simp [knownDomains]) dataSpi075⟩

/-- C4.  Partial-failure isolation: if the condition of one rule raises (modelled
by an `Except.error` result), the rule loop still returns; the failing rule
contributes exactly one `error`-action message embedding the exception text,
in its catalog position, and every other rule whose condition fires keeps
its normal message.  Stated for an arbitrary rule catalog `pre ++ bad ::
post`, as catalogs are data and externally extensible. -/
theorem partial_failure_isolation :
    ∀ (pre post : List Rule) (bad : Rule) (data : GRData) (e : String),
      bad.condition data = .error e →
      ((applyRules (pre ++ bad :: post) data).1 =
        (applyRules pre data).1 ++
          ⟨bad.id, bad.name, "Erro ao aplicar regra: " ++ e, "error"⟩ ::
            (applyRules post data).1 ∧
        ∀ r : Rule, (r ∈ pre ∨ r ∈ post) → r.condition data = .ok true →
          (⟨r.id, r.name, r.message, r.action⟩ : FiredMessage) ∈
            (applyRules (pre ++ bad :: post) data).1) := by
  intro pre post bad data e he
  have happ := applyRules_append data pre (bad :: post)
  have hcons : (applyRules (bad :: post) data).1 =
      ⟨bad.id, bad.name, "Erro ao aplicar regra: " ++ e, "error"⟩ ::
        (applyRules post data).1 := by
    simp [applyRules, he]
  constructor
  · rw [happ, hcons]
  · intro r hr hcond
    rw [happ]
    rcases hr with hr | hr
    · apply List.mem_append_left
      rw [applyRules_messages]
      exact List.mem_filterMap.mpr ⟨r, hr, by simp [msgOf, hcond]⟩
    · apply List.mem_append_right
      rw [hcons]
      apply List.mem_cons_of_mem
      rw [applyRules_messages]
      exact List.mem_filterMap.mpr ⟨r, hr, by simp [msgOf, hcond]⟩

/-- A broken rule whose condition raises on every record, as in a catalog
referencing a missing key. -/
def ruleBroken : Rule where
  id := "SCH-00X"
  name := "Regra quebrada"
  description := "Condição que referencia uma chave ausente"
  condition := fun _ => .error "KeyError: duracao_planejada"
  action := "notify"
  message := "nunca emitida"

/-- Witness for C4: the isolation theorem applied to the catalog
`[SCH-001, broken, SCH-002]` on the SPI = 0.75 record. -/
theorem partial_failure_isolation_witness :
    ruleBroken.condition dataSpi075 = .error "KeyError: duracao_planejada" ∧
      ((applyRules ([ruleSCH001] ++ ruleBroken :: [ruleSCH002]) dataSpi075).1 =
        (applyRules [ruleSCH001] dataSpi075).1 ++
          ⟨ruleBroken.id, ruleBroken.name,
            "Erro ao aplicar regra: " ++ "KeyError: duracao_planejada",
            "error"⟩ :: (applyRules [ruleSCH002] dataSpi075).1 ∧
        ∀ r : Rule, (r ∈ [ruleSCH001] ∨ r ∈ [ruleSCH002]) →
          r.condition dataSpi075 = .ok true →
          (⟨r.id, r.name, r.message, r.action⟩ : FiredMessage) ∈
            (applyRules ([ruleSCH001] ++ ruleBroken :: [ruleSCH002])
              dataSpi075).1) :=
  ⟨rfl, partial_failure_isolation [ruleSCH001] [ruleSCH002] ruleBroken
    dataSpi075 "KeyError: duracao_planejada" rfl⟩

/-- C8.  For every domain string other than the four known ones and every
data record, `validate` returns normally with `valid = false` and the single
bare message `Domínio inválido: <domain>` (a bare string, not a
`{rule_id, rule_name, message, action}` record). -/
theorem invalid_domain_result :
    ∀ (domain : String) (data : GRData), domain ∉ knownDomains →
      validate domain data =
        ⟨false, [VMessage.bare ("Domínio inválido: " ++ domain)]⟩ := by
  intro domain data h
  have h1 : domain ≠ "cronograma" := fun e => h (by simp [knownDomains, e])
  have h2 : domain ≠ "custos" := fun e => h (by simp [knownDomains, e])
  have h3 : domain ≠ "escopo" := fun e => h (by simp [knownDomains, e])
  have h4 : domain ≠ "riscos" := fun e => h (by simp [knownDomains, e])
  simp [validate, rulesFor, h1, h2, h3, h4]

/-- Witness for C8: the unknown domain `financeiro`. -/
theorem invalid_domain_result_witness :
    "financeiro" ∉ knownDomains ∧
      validate "financeiro" dataSpi075 =
        ⟨false, [VMessage.bare ("Domínio inválido: " ++ "financeiro")]⟩ :=
  ⟨by simp [knownDomains], invalid_domain_result "financeiro" dataSpi075
    (by simp [knownDomains])⟩

/-! ## Python string primitives
The core `String.splitOn`, `trim`, `replace` and `split` are built on
`Substring` position loops that the kernel cannot evaluate, so the Python
string operations used by the extractors are modelled directly on character
lists with structural recursion.  `String` literals convert to character
lists by `String.data`. -/

/-- The ASCII whitespace characters stripped by Python `str.strip()` and
split on by `str.split()`. -/
def isWSChar (c : Char) : Bool :=
  c = ' ' || c = '\t' || c = '\n' || c = '\r' || c = '\x0b' || c = '\x0c'

/-- Python `s.strip()` on a character list. -/
def trimList (cs : List Char) : List Char :=
  ((cs.dropWhile isWSChar).reverse.dropWhile isWSChar).reverse

/-- Python `s.split(sep)` on character lists, fuelled by the input length
(every step consumes at least one character). -/
def pySplitAux (sep : List Char) : Nat → List Char → List (List Char)
  | _, [] => [[]]
  | 0, cs => [cs]
  | n+1, c :: rest =>
    if sep.isPrefixOf (c :: rest) then
      [] :: pySplitAux sep n (List.drop (sep.length - 1) rest)
    else
      match pySplitAux sep n rest with
      | [] => [[c]]
      | p :: ps => (c :: p) :: ps

/-- Python `s.split(sep)` for a nonempty separator. -/
def pySplitOn (s sep : String) : List String :=
  (pySplitAux sep.data s.data.length s.data).map String.mk

/-- Join pieces with a separator (Python `sep.join`). -/
def joinWith (sep : List Char) : List (List Char) → List Char
  | [] => []
  | [p] => p
  | p :: ps => p ++ sep ++ joinWith sep ps

/-- Python `s.strip()`. -/
def pyTrim (s : String) : String := String.mk (trimList s.data)

/-- Python `s.replace(old, new)` (all occurrences), via
`new.join(s.split(old))`. -/
def pyReplace (s old new : String) : String :=
  String.mk (joinWith new.data (pySplitAux old.data s.data.length s.data))

/-- Python `s.startswith(p)`. -/
def pyStartsWith (s p : String) : Bool := p.data.isPrefixOf s.data

/-- Python `s[n:]` (drop the first `n` characters). -/
def pyDrop (s : String) (n : Nat) : String := String.mk (s.data.drop n)

/-! ## Recommendation validation
Embedding of `PMBOKGuardRails.validate_recommendations`,
`_topic_covered_in_recommendations` and `_extract_keywords`
(lines 289-363 of `pmbok_guard_rails.py`).  Python `str.lower()` is
modelled on the Basic Latin and Latin-1 letters (the only characters
appearing in the rule catalogs); `in` on strings is modelled by an explicit
substring scan. -/

/-- `str.lower()` on one character, covering ASCII `A`-`Z` and the Latin-1
uppercase letters `À`-`Þ` (excluding `×`), which is the full case-folding
behaviour on the Portuguese text of this repository. -/
def pyLowerChar (c : Char) : Char :=
  if 'A' ≤ c ∧ c ≤ 'Z' then Char.ofNat (c.toNat + 32)
  else if 'À' ≤ c ∧ c ≤ 'Þ' ∧ c ≠ '×' then Char.ofNat (c.toNat + 32)
  else c

/-- `str.lower()`. -/
def pyLower (s : String) : String := String.mk (s.data.map pyLowerChar)

/-- Substring test on character lists: `needle` occurs contiguously in the
haystack. -/
def containsSub (needle : List Char) : List Char → Bool
  | [] => needle.isEmpty
  | c :: cs => needle.isPrefixOf (c :: cs) || containsSub needle cs

/-- Python `needle in hay` on strings. -/
def strContains (hay needle : String) : Bool := containsSub needle.data hay.data

/-- The fixed stop-word list of `_extract_keywords`. -/
def stop_words : List String := ["para", "com", "que", "deve", "quando", "requer"]

/-- Auxiliary single pass for `str.split()` with no separator. -/
def splitWsAux : List Char → List Char → List (List Char)
  | [], acc => [acc.reverse]
  | c :: cs, acc =>
    if isWSChar c then acc.reverse :: splitWsAux cs []
    else splitWsAux cs (c :: acc)

/-- Python `str.split()` with no separator: split on whitespace runs,
discarding empty pieces. -/
def pySplitWs (s : String) : List String :=
  ((splitWsAux s.data []).map String.mk).filter (fun w => w ≠ "")

/-- `PMBOKGuardRails._extract_keywords`: the words of `topic.lower()` longer
than 4 characters and not in the stop-word list. -/
def extract_keywords (topic : String) : List String :=
  (pySplitWs (pyLower topic)).filter
    (fun w => decide (w.length > 4) && !(stop_words.contains w))

/-- `PMBOKGuardRails._topic_covered_in_recommendations`: some supplied
recommendation, lowercased, contains some keyword of the topic as a
substring. -/
def topic_covered_in_recommendations (topic : String)
    (recommendations : List String) : Bool :=
  let keywords := extract_keywords topic
  recommendations.any fun r => keywords.any fun k => strContains (pyLower r) k

/-- The first collection loop of `validate_recommendations`: the rule name
of a fired `require` message (`bare` messages only arise for unknown
domains, where `validate_recommendations` is never meaningfully called). -/
def requireNameOf (m : VMessage) : Option String :=
  match m with
  | .record fm => if fm.action = "require" then some fm.rule_name else none
  | .bare _ => none

/-- The aggregation loop of `validate_recommendations`: the message text of
a fired `recommend` rule, or of a fired `require` rule whose name is among
the missing topics `M`. -/
def additionalMsgOf (M : List String) (m : VMessage) : Option String :=
  match m with
  | .record fm =>
    if fm.action = "recommend" ∨ (fm.action = "require" ∧ fm.rule_name ∈ M)
    then some fm.message else none
  | .bare _ => none

/-- `PMBOKGuardRails.validate_recommendations` (timestamp elided): run the
rule engine, collect fired `require` rule names, filter out the topics
covered by the supplied recommendations, aggregate the additional
recommendations, and report `valid` iff no topic is missing. -/
def validate_recommendations (domain : String) (recommendations : List String)
    (data : GRData) : RecValidation :=
  let validation_results := validate domain data
  let required_topics := validation_results.messages.filterMap requireNameOf
  let missing_topics := required_topics.filter
    (fun t => !(topic_covered_in_recommendations t recommendations))
  let additional_recommendations :=
    validation_results.messages.filterMap (additionalMsgOf missing_topics)
  ⟨missing_topics.isEmpty, missing_topics, additional_recommendations,
    validation_results.messages⟩

theorem covered_iff (topic : String) (recs : List String) :
    topic_covered_in_recommendations topic recs = true ↔
      ∃ s ∈ recs, ∃ k ∈ extract_keywords topic,
        strContains (pyLower s) k = true := by
  simp [topic_covered_in_recommendations, List.any_eq_true]


theorem filterMap_ext {α β : Type} (f g : α → Option β) (h : ∀ x, f x = g x) :
    ∀ l : List α, l.filterMap f = l.filterMap g := by
  intro l
  induction l with
  | nil => rfl
  | cons a t ih => simp [List.filterMap_cons, h a, ih]

theorem required_missing_spec (data : GRData) (recs : List String) :
    ∀ rules : List Rule,
      ((((applyRules rules data).1.map VMessage.record).filterMap
          requireNameOf).filter
        (fun t => !(topic_covered_in_recommendations t recs))) =
      rules.filterMap (fun r =>
        if r.condition data = Except.ok true ∧ r.action = "require" ∧
            topic_covered_in_recommendations r.name recs = false
        then some r.name else none) := by
  intro rules
  induction rules with
  | nil => rfl
  | cons r rs ih =>
    cases hc : r.condition data with
    | error e =>
      simpa [applyRules, hc, requireNameOf] using ih
    | ok b =>
      cases b with
      | false => simpa [applyRules, hc] using ih
      | true =>
        by_cases hreq : r.action = "require"
        · by_cases hcov : topic_covered_in_recommendations r.name recs = true
          · simpa [applyRules, hc, requireNameOf, hreq, hcov] using ih
          · have hcov' : topic_covered_in_recommendations r.name recs = false := by
              simpa using hcov
            simpa [applyRules, hc, requireNameOf, hreq, hcov'] using ih
        · simpa [applyRules, hc, requireNameOf, hreq] using ih

theorem additional_spec (data : GRData) (M : List String) :
    ∀ rules : List Rule,
      ((applyRules rules data).1.map VMessage.record).filterMap
          (additionalMsgOf M) =
        rules.filterMap (fun r =>
          if r.condition data = Except.ok true ∧
              (r.action = "recommend" ∨ (r.action = "require" ∧ r.name ∈ M))
          then some r.message else none) := by
  intro rules
  induction rules with
  | nil => rfl
  | cons r rs ih =>
    cases hc : r.condition data with
    | error e =>
      simpa [applyRules, hc, additionalMsgOf] using ih
    | ok b =>
      cases b with
      | false => simpa [applyRules, hc] using ih
      | true =>
        by_cases hcond : r.action = "recommend" ∨
            (r.action = "require" ∧ r.name ∈ M)
        · simpa [applyRules, hc, additionalMsgOf, hcond] using ih
        · simpa [applyRules, hc, additionalMsgOf, hcond] using ih

theorem covered_pointwise (data : GRData) (recs : List String) :
    ∀ r : Rule,
      (if r.condition data = Except.ok true ∧ r.action = "require" ∧
          topic_covered_in_recommendations r.name recs = false
        then some r.name else none) =
      (if r.condition data = Except.ok true ∧ r.action = "require" ∧
          ¬ ∃ s ∈ recs, ∃ k ∈ extract_keywords r.name,
            strContains (pyLower s) k = true
        then some r.name else none) := by
  intro r
  by_cases hcov : topic_covered_in_recommendations r.name recs = true
  · have hex := (covered_iff r.name recs).mp hcov
    simp [hcov, hex]
  · have hcov' : topic_covered_in_recommendations r.name recs = false := by
      simpa using hcov
    have hex : ¬ ∃ s ∈ recs, ∃ k ∈ extract_keywords r.name,
        strContains (pyLower s) k = true :=
      fun h => hcov ((covered_iff r.name recs).mpr h)
    simp [hcov', hex]

theorem validate_recommendations_spec (rules : List Rule) (domain : String)
    (hd : rulesFor domain = some rules) (recs : List String) (data : GRData) :
    (validate_recommendations domain recs data).missing_topics =
      rules.filterMap (fun r =>
        if r.condition data = Except.ok true ∧ r.action = "require" ∧
            ¬ ∃ s ∈ recs, ∃ k ∈ extract_keywords r.name,
              strContains (pyLower s) k = true
        then some r.name else none) ∧
    (validate_recommendations domain recs data).additional_recommendations =
      rules.filterMap (fun r =>
        if r.condition data = Except.ok true ∧
            (r.action = "recommend" ∨ (r.action = "require" ∧
              r.name ∈ (validate_recommendations domain recs data).missing_topics))
        then some r.message else none) ∧
    ((validate_recommendations domain recs data).valid = true ↔
      (validate_recommendations domain recs data).missing_topics = []) := by
  have hv : validate domain data =
      ⟨(applyRules rules data).2, (applyRules rules data).1.map VMessage.record⟩ := by
    simp [validate, hd]
  have hMeq : rules.filterMap (fun r =>
        if r.condition data = Except.ok true ∧ r.action = "require" ∧
            topic_covered_in_recommendations r.name recs = false
        then some r.name else none) =
      rules.filterMap (fun r =>
        if r.condition data = Except.ok true ∧ r.action = "require" ∧
            ¬ ∃ s ∈ recs, ∃ k ∈ extract_keywords r.name,
              strContains (pyLower s) k = true
        then some r.name else none) :=
    filterMap_ext _ _ (covered_pointwise data recs) rules
  have hmiss : (validate_recommendations domain recs data).missing_topics =
      rules.filterMap (fun r =>
        if r.condition data = Except.ok true ∧ r.action = "require" ∧
            ¬ ∃ s ∈ recs, ∃ k ∈ extract_keywords r.name,
              strContains (pyLower s) k = true
        then some r.name else none) := by
    simp only [validate_recommendations, hv]
    rw [required_missing_spec data recs rules]
    exact hMeq
  refine ⟨hmiss, ?_, ?_⟩
  · have hadd : (validate_recommendations domain recs data).additional_recommendations =
        rules.filterMap (fun r =>
          if r.condition data = Except.ok true ∧
              (r.action = "recommend" ∨ (r.action = "require" ∧
                r.name ∈ rules.filterMap (fun r' =>
                  if r'.condition data = Except.ok true ∧ r'.action = "require" ∧
                      topic_covered_in_recommendations r'.name recs = false
                  then some r'.name else none)))
          then some r.message else none) := by
      simp only [validate_recommendations, hv]
      rw [required_missing_spec data recs rules]
      exact additional_spec data _ rules
    rw [hadd]
    simp only [hMeq, hmiss]
  · simp only [validate_recommendations, hv]
    simp [List.isEmpty_iff]

/-! ### Claim C5 -/

/-- C5.  For every known domain, recommendation list and data mapping:
`missing_topics` is the list of names of fired `require` rules for which no
supplied recommendation, lowercased, contains as a substring any keyword
token of the rule name (tokens longer than 4 characters, excluding the
stop-word list — the content of `extract_keywords`); 
`additional_recommendations` is the message of every fired `recommend` rule
plus the message of every fired `require` rule whose name is in
`missing_topics`, in catalog order; and `valid` holds iff `missing_topics`
is empty, for every data record — hence independently of the rule engine
flag `valid` itself. -/
theorem recommendation_validator :
    ∀ domain ∈ knownDomains, ∀ (recommendations : List String) (data : GRData),
      (validate_recommendations domain recommendations data).missing_topics =
        ((rulesFor domain).getD []).filterMap (fun r =>
          if r.condition data = Except.ok true ∧ r.action = "require" ∧
              ¬ ∃ s ∈ recommendations, ∃ k ∈ extract_keywords r.name,
                strContains (pyLower s) k = true
          then some r.name else none) ∧
      (validate_recommendations domain recommendations data).additional_recommendations =
        ((rulesFor domain).getD []).filterMap (fun r =>
          if r.condition data = Except.ok true ∧
              (r.action = "recommend" ∨ (r.action = "require" ∧
                r.name ∈ (validate_recommendations domain recommendations
                  data).missing_topics))
          then some r.message else none) ∧
      ((validate_recommendations domain recommendations data).valid = true ↔
        (validate_recommendations domain recommendations data).missing_topics = []) := by
  intro domain hdom recommendations data
  simp only [knownDomains, List.mem_cons, List.not_mem_nil, or_false] at hdom
  rcases hdom with rfl | rfl | rfl | rfl
  · simpa only [rulesFor_cronograma, Option.getD_some] using
      validate_recommendations_spec schedule_rules "cronograma"
        rulesFor_cronograma recommendations data
  · simpa only [rulesFor_custos, Option.getD_some] using
      validate_recommendations_spec cost_rules "custos"
        rulesFor_custos recommendations data
  · simpa only [rulesFor_escopo, Option.getD_some] using
      validate_recommendations_spec scope_rules "escopo"
        rulesFor_escopo recommendations data
  · simpa only [rulesFor_riscos, Option.getD_some] using
      validate_recommendations_spec risk_rules "riscos"
        rulesFor_riscos recommendations data

/-- A concrete guard-rail data record with CPI = 0.85. -/
def dataCpi085 : GRData := { cpi := some (85/100) }

/-- Witness for C5: the characterization applied to the cost domain with
CPI = 0.85 and one recommendation mentioning the recovery plan. -/
theorem recommendation_validator_witness :
    "custos" ∈ knownDomains ∧
      ((validate_recommendations "custos"
          ["Elaborar plano de recuperação de custos"] dataCpi085).missing_topics =
        ((rulesFor "custos").getD []).filterMap (fun r =>
          if r.condition dataCpi085 = Except.ok true ∧ r.action = "require" ∧
              ¬ ∃ s ∈ ["Elaborar plano de recuperação de custos"],
                ∃ k ∈ extract_keywords r.name,
                  strContains (pyLower s) k = true
          then some r.name else none) ∧
      (validate_recommendations "custos"
          ["Elaborar plano de recuperação de custos"]
          dataCpi085).additional_recommendations =
        ((rulesFor "custos").getD []).filterMap (fun r =>
          if r.condition dataCpi085 = Except.ok true ∧
              (r.action = "recommend" ∨ (r.action = "require" ∧
                r.name ∈ (validate_recommendations "custos"
                  ["Elaborar plano de recuperação de custos"]
                  dataCpi085).missing_topics))
          then some r.message else none) ∧
      ((validate_recommendations "custos"
          ["Elaborar plano de recuperação de custos"] dataCpi085).valid = true ↔
        (validate_recommendations "custos"
          ["Elaborar plano de recuperação de custos"]
          dataCpi085).missing_topics = [])) :=
  ⟨by simp [knownDomains],
    recommendation_validator "custos" (by simp [knownDomains])
      ["Elaborar plano de recuperação de custos"] dataCpi085⟩


/-! ## Label-based field extraction
Embedding of `ScheduleAgent._extract_schedule_status` (lines 105-190) and
`CostAgent._extract_cost_status` (lines 105-199).  Python
`line.split(label)` is `pySplitOn`; `[1]` after an `in` guard is `getD 1`;
`.strip()` is `pyTrim`.  `float()` / `int()` are modelled on plain decimal
literals — the exponent, `inf`/`nan` and underscore forms never produced by
the report format are rejected; what matters for the claims is that failure
yields `none`. -/

/-- Value of a digit run. -/
def digitsVal (ds : List Char) : ℕ :=
  ds.foldl (fun acc c => acc * 10 + (c.toNat - '0'.toNat)) 0

/-- The character-level part of Python `float(s)` on plain decimal
literals: optional surrounding whitespace, optional sign, digits with an
optional fractional part (at least one digit overall).  Returns the sign,
the mantissa (the concatenated integer and fraction digits) and the number
of fraction digits; any other shape raises `ValueError` in Python,
modelled as `none`. -/
def pyFloatParse (s : String) : Option (Bool × ℕ × ℕ) :=
  let cs := trimList s.data
  let neg : Bool := match cs with
    | '-' :: _ => true
    | _ => false
  let rest := match cs with
    | '+' :: r => r
    | '-' :: r => r
    | r => r
  let intPart := rest.takeWhile Char.isDigit
  let rest1 := rest.dropWhile Char.isDigit
  match rest1 with
  | [] =>
    if intPart.isEmpty then none else some (neg, digitsVal intPart, 0)
  | '.' :: rest2 =>
    let fracPart := rest2.takeWhile Char.isDigit
    let rest3 := rest2.dropWhile Char.isDigit
    if rest3 = [] ∧ (intPart ≠ [] ∨ fracPart ≠ [])
    then some (neg, digitsVal (intPart ++ fracPart), fracPart.length)
    else none
  | _ => none

/-- Python `float(s)` on plain decimal literals: the parsed mantissa over
the power of ten given by the fraction length, with its sign. -/
def pyFloat (s : String) : Option ℚ :=
  (pyFloatParse s).map fun t =>
    (if t.1 then -1 else 1) * (t.2.1 : ℚ) / (10 : ℚ) ^ t.2.2

/-- Python `int(s)`: optional surrounding whitespace, optional sign, a
nonempty digit run and nothing else; otherwise `none` (`ValueError`). -/
def pyInt (s : String) : Option ℤ :=
  let cs := trimList s.data
  let sign : ℤ := match cs with
    | '-' :: _ => -1
    | _ => 1
  let rest := match cs with
    | '+' :: r => r
    | '-' :: r => r
    | r => r
  if rest ≠ [] ∧ rest.all Char.isDigit
  then some (sign * (digitsVal rest : ℤ))
  else none

/-- Python `label in line`. -/
def labelIn (label line : String) : Bool :=
  decide ((pySplitOn line label).length > 1)

/-- Python `line.split(label)[1].strip()`, meaningful under the `labelIn`
guard: the text between the first occurrence of the label and the next
occurrence (or the end of the line), stripped. -/
def afterLabel (label line : String) : String :=
  pyTrim ((pySplitOn line label).getD 1 "")

/-- One iteration of the first extraction loop of
`_extract_schedule_status`: the `if/elif` label chain over one line, with a
failed numeric parse leaving the record unchanged (`except: pass`). -/
def processScheduleLine (st : ScheduleStatus) (line : String) : ScheduleStatus :=
  if labelIn "Status atual:" line then
    { st with status := some (afterLabel "Status atual:" line) }
  else if labelIn "Percentual de conclusão:" line then
    match pyFloat (pyReplace (afterLabel "Percentual de conclusão:" line) "%" "") with
    | some v => { st with percentual_conclusao := some v }
    | none => st
  else if labelIn "Data de início:" line then
    { st with data_inicio := some (afterLabel "Data de início:" line) }
  else if labelIn "Data de término planejada:" line then
    { st with data_termino_planejada := some (afterLabel "Data de término planejada:" line) }
  else if labelIn "Data de término real/prevista:" line then
    { st with data_termino_real := some (afterLabel "Data de término real/prevista:" line) }
  else if labelIn "Atraso atual:" line then
    match pyInt ((pySplitOn (afterLabel "Atraso atual:" line) " dias").getD 0 "") with
    | some v => { st with atraso_dias := some v }
    | none => st
  else if labelIn "Motivo do atraso:" line then
    { st with motivo_atraso := some (afterLabel "Motivo do atraso:" line) }
  else if labelIn "Índice de Desempenho de Cronograma (SPI):" line then
    match pyFloat (afterLabel "Índice de Desempenho de Cronograma (SPI):" line) with
    | some v => { st with spi := some v }
    | none => st
  else if labelIn "Valor Planejado (PV):" line then
    match pyFloat (pyTrim (pyReplace (afterLabel "Valor Planejado (PV):" line) "R$" "")) with
    | some v => { st with valor_planejado := some v }
    | none => st
  else if labelIn "Valor Agregado (EV):" line then
    match pyFloat (pyTrim (pyReplace (afterLabel "Valor Agregado (EV):" line) "R$" "")) with
    | some v => { st with valor_agregado := some v }
    | none => st
  else st

/-- State of the second loop of `_extract_schedule_status` (critical and
delayed task sections). -/
structure TaskSections where
  inCritical : Bool := false
  inDelayed : Bool := false
  criticas : List String := []
  atrasadas : List String := []

/-- One iteration of the task-section loop: section headers toggle the
flags, a blank line or a `RELATÓRIO` header closes both sections, and a
bullet line inside a section contributes its stripped text. -/
def processTaskLine (s : TaskSections) (line : String) : TaskSections :=
  if labelIn "Tarefas críticas:" line then
    { s with inCritical := true, inDelayed := false }
  else if labelIn "Tarefas atrasadas:" line then
    { s with inCritical := false, inDelayed := true }
  else if pyTrim line = "" ∨ pyStartsWith line "RELATÓRIO" then
    { s with inCritical := false, inDelayed := false }
  else if s.inCritical ∧ pyStartsWith (pyTrim line) "-" then
    { s with criticas := s.criticas ++ [pyTrim (pyDrop (pyTrim line) 2)] }
  else if s.inDelayed ∧ pyStartsWith (pyTrim line) "-" then
    { s with atrasadas := s.atrasadas ++ [pyTrim (pyDrop (pyTrim line) 2)] }
  else s

/-- `_extract_schedule_status`: both loops over `content.split('\n')`, then
the unconditional assignment of the two task lists. -/
def extract_schedule_status (content : String) : ScheduleStatus :=
  let lines := pySplitOn content "\n"
  let st := lines.foldl processScheduleLine {}
  let sec := lines.foldl processTaskLine {}
  { st with tarefas_criticas := sec.criticas, tarefas_atrasadas := sec.atrasadas }

/-- One iteration of the first extraction loop of `_extract_cost_status`. -/
def processCostLine (st : CostStatus) (line : String) : CostStatus :=
  if labelIn "Orçamento inicial:" line then
    match pyFloat (pyTrim (pyReplace (afterLabel "Orçamento inicial:" line) "R$" "")) with
    | some v => { st with orcamento_inicial := some v }
    | none => st
  else if labelIn "Custo real atual:" line then
    match pyFloat (pyTrim (pyReplace (afterLabel "Custo real atual:" line) "R$" "")) with
    | some v => { st with custo_real := some v }
    | none => st
  else if labelIn "Desvio orçamentário:" line then
    match pyFloat (pyTrim (pyReplace (afterLabel "Desvio orçamentário:" line) "%" "")) with
    | some v => { st with desvio_orcamento := some v }
    | none => st
  else if labelIn "Índice de Desempenho de Custo (CPI):" line then
    match pyFloat (afterLabel "Índice de Desempenho de Custo (CPI):" line) with
    | some v => { st with cpi := some v }
    | none => st
  else if labelIn "Valor Agregado (EV):" line then
    match pyFloat (pyTrim (pyReplace (afterLabel "Valor Agregado (EV):" line) "R$" "")) with
    | some v => { st with valor_agregado := some v }
    | none => st
  else if labelIn "Estimativa para conclusão:" line then
    match pyFloat (pyTrim (pyReplace (afterLabel "Estimativa para conclusão:" line) "R$" "")) with
    | some v => { st with estimativa_conclusao := some v }
    | none => st
  else if labelIn "Estimativa no término (EAC):" line then
    match pyFloat (pyTrim (pyReplace (afterLabel "Estimativa no término (EAC):" line) "R$" "")) with
    | some v => { st with estimativa_termino := some v }
    | none => st
  else if labelIn "Variação no término (VAC):" line then
    match pyFloat (pyTrim (pyReplace (afterLabel "Variação no término (VAC):" line) "R$" "")) with
    | some v => { st with variacao_termino := some v }
    | none => st
  else st

/-- State of the cost-category section loop of `_extract_cost_status`. -/
structure CatSection where
  inCategories : Bool := false
  cats : List (String × ℚ × Option ℚ) := []

/-- One iteration of the category loop: a bullet inside the section is split
on `:` into name and value, the value on `(` into amount and optional
percentage; any failed `float` aborts the whole entry (the enclosing
`try/except`).  Categories are kept as an insertion-ordered association
list; the report format lists each category once. -/
def processCatLine (s : CatSection) (line : String) : CatSection :=
  if labelIn "Detalhamento por categoria:" line then
    { s with inCategories := true }
  else if pyTrim line = "" ∨ pyStartsWith line "RELATÓRIO" then
    { s with inCategories := false }
  else if s.inCategories ∧ pyStartsWith (pyTrim line) "-" then
    let parts := pySplitOn (pyDrop (pyTrim line) 2) ":"
    if parts.length ≥ 2 then
      let categoria := pyTrim (parts.getD 0 "")
      let valor_parts := pySplitOn (pyTrim (parts.getD 1 "")) "("
      match pyFloat (pyTrim (pyReplace (valor_parts.getD 0 "") "R$" "")) with
      | none => s
      | some valor =>
        if valor_parts.length > 1 then
          match pyFloat (pyTrim (pyReplace (valor_parts.getD 1 "") "%)" "")) with
          | none => s
          | some pct => { s with cats := s.cats ++ [(categoria, valor, some pct)] }
        else { s with cats := s.cats ++ [(categoria, valor, none)] }
    else s
  else s

/-- `_extract_cost_status`: both loops over `content.split('\n')`, then the
unconditional assignment of the category mapping. -/
def extract_cost_status (content : String) : CostStatus :=
  let lines := pySplitOn content "\n"
  let st := lines.foldl processCostLine {}
  let sec := lines.foldl processCatLine {}
  { st with categorias_custos := sec.cats }

theorem processScheduleLine_spi (st : ScheduleStatus) (line : String)
    (h : labelIn "Índice de Desempenho de Cronograma (SPI):" line = true →
      pyFloat (afterLabel "Índice de Desempenho de Cronograma (SPI):" line) = none) :
    (processScheduleLine st line).spi = st.spi := by
  unfold processScheduleLine
  by_cases h1 : labelIn "Status atual:" line = true
  · rw [if_pos h1]
  · rw [if_neg h1]
    by_cases h2 : labelIn "Percentual de conclusão:" line = true
    · rw [if_pos h2]
      cases hp : pyFloat (pyReplace (afterLabel "Percentual de conclusão:" line) "%" "") <;> rfl
    · rw [if_neg h2]
      by_cases h3 : labelIn "Data de início:" line = true
      · rw [if_pos h3]
      · rw [if_neg h3]
        by_cases h4 : labelIn "Data de término planejada:" line = true
        · rw [if_pos h4]
        · rw [if_neg h4]
          by_cases h5 : labelIn "Data de término real/prevista:" line = true
          · rw [if_pos h5]
          · rw [if_neg h5]
            by_cases h6 : labelIn "Atraso atual:" line = true
            · rw [if_pos h6]
              cases hp : pyInt ((pySplitOn (afterLabel "Atraso atual:" line) " dias").getD 0 "") <;> rfl
            · rw [if_neg h6]
              by_cases h7 : labelIn "Motivo do atraso:" line = true
              · rw [if_pos h7]
              · rw [if_neg h7]
                by_cases h8 : labelIn "Índice de Desempenho de Cronograma (SPI):" line = true
                · rw [if_pos h8, h h8]
                · rw [if_neg h8]
                  by_cases h9 : labelIn "Valor Planejado (PV):" line = true
                  · rw [if_pos h9]
                    cases hp : pyFloat (pyTrim (pyReplace (afterLabel "Valor Planejado (PV):" line) "R$" "")) <;> rfl
                  · rw [if_neg h9]
                    by_cases h10 : labelIn "Valor Agregado (EV):" line = true
                    · rw [if_pos h10]
                      cases hp : pyFloat (pyTrim (pyReplace (afterLabel "Valor Agregado (EV):" line) "R$" "")) <;> rfl
                    · rw [if_neg h10]

theorem processScheduleLine_percentual (st : ScheduleStatus) (line : String)
    (h : labelIn "Percentual de conclusão:" line = true →
      pyFloat (pyReplace (afterLabel "Percentual de conclusão:" line) "%" "") = none) :
    (processScheduleLine st line).percentual_conclusao = st.percentual_conclusao := by
  unfold processScheduleLine
  by_cases h1 : labelIn "Status atual:" line = true
  · rw [if_pos h1]
  · rw [if_neg h1]
    by_cases h2 : labelIn "Percentual de conclusão:" line = true
    · rw [if_pos h2, h h2]
    · rw [if_neg h2]
      by_cases h3 : labelIn "Data de início:" line = true
      · rw [if_pos h3]
      · rw [if_neg h3]
        by_cases h4 : labelIn "Data de término planejada:" line = true
        · rw [if_pos h4]
        · rw [if_neg h4]
          by_cases h5 : labelIn "Data de término real/prevista:" line = true
          · rw [if_pos h5]
          · rw [if_neg h5]
            by_cases h6 : labelIn "Atraso atual:" line = true
            · rw [if_pos h6]
              cases hp : pyInt ((pySplitOn (afterLabel "Atraso atual:" line) " dias").getD 0 "") <;> rfl
            · rw [if_neg h6]
              by_cases h7 : labelIn "Motivo do atraso:" line = true
              · rw [if_pos h7]
              · rw [if_neg h7]
                by_cases h8 : labelIn "Índice de Desempenho de Cronograma (SPI):" line = true
                · rw [if_pos h8]
                  cases hp : pyFloat (afterLabel "Índice de Desempenho de Cronograma (SPI):" line) <;> rfl
                · rw [if_neg h8]
                  by_cases h9 : labelIn "Valor Planejado (PV):" line = true
                  · rw [if_pos h9]
                    cases hp : pyFloat (pyTrim (pyReplace (afterLabel "Valor Planejado (PV):" line) "R$" "")) <;> rfl
                  · rw [if_neg h9]
                    by_cases h10 : labelIn "Valor Agregado (EV):" line = true
                    · rw [if_pos h10]
                      cases hp : pyFloat (pyTrim (pyReplace (afterLabel "Valor Agregado (EV):" line) "R$" "")) <;> rfl
                    · rw [if_neg h10]

theorem processScheduleLine_atraso (st : ScheduleStatus) (line : String)
    (h : labelIn "Atraso atual:" line = true →
      pyInt ((pySplitOn (afterLabel "Atraso atual:" line) " dias").getD 0 "") = none) :
    (processScheduleLine st line).atraso_dias = st.atraso_dias := by
  unfold processScheduleLine
  by_cases h1 : labelIn "Status atual:" line = true
  · rw [if_pos h1]
  · rw [if_neg h1]
    by_cases h2 : labelIn "Percentual de conclusão:" line = true
    · rw [if_pos h2]
      cases hp : pyFloat (pyReplace (afterLabel "Percentual de conclusão:" line) "%" "") <;> rfl
    · rw [if_neg h2]
      by_cases h3 : labelIn "Data de início:" line = true
      · rw [if_pos h3]
      · rw [if_neg h3]
        by_cases h4 : labelIn "Data de término planejada:" line = true
        · rw [if_pos h4]
        · rw [if_neg h4]
          by_cases h5 : labelIn "Data de término real/prevista:" line = true
          · rw [if_pos h5]
          · rw [if_neg h5]
            by_cases h6 : labelIn "Atraso atual:" line = true
            · rw [if_pos h6, h h6]
            · rw [if_neg h6]
              by_cases h7 : labelIn "Motivo do atraso:" line = true
              · rw [if_pos h7]
              · rw [if_neg h7]
                by_cases h8 : labelIn "Índice de Desempenho de Cronograma (SPI):" line = true
                · rw [if_pos h8]
                  cases hp : pyFloat (afterLabel "Índice de Desempenho de Cronograma (SPI):" line) <;> rfl
                · rw [if_neg h8]
                  by_cases h9 : labelIn "Valor Planejado (PV):" line = true
                  · rw [if_pos h9]
                    cases hp : pyFloat (pyTrim (pyReplace (afterLabel "Valor Planejado (PV):" line) "R$" "")) <;> rfl
                  · rw [if_neg h9]
                    by_cases h10 : labelIn "Valor Agregado (EV):" line = true
                    · rw [if_pos h10]
                      cases hp : pyFloat (pyTrim (pyReplace (afterLabel "Valor Agregado (EV):" line) "R$" "")) <;> rfl
                    · rw [if_neg h10]

theorem processCostLine_cpi (st : CostStatus) (line : String)
    (h : labelIn "Índice de Desempenho de Custo (CPI):" line = true →
      pyFloat (afterLabel "Índice de Desempenho de Custo (CPI):" line) = none) :
    (processCostLine st line).cpi = st.cpi := by
  unfold processCostLine
  by_cases h1 : labelIn "Orçamento inicial:" line = true
  · rw [if_pos h1]
    cases hp : pyFloat (pyTrim (pyReplace (afterLabel "Orçamento inicial:" line) "R$" "")) <;> rfl
  · rw [if_neg h1]
    by_cases h2 : labelIn "Custo real atual:" line = true
    · rw [if_pos h2]
      cases hp : pyFloat (pyTrim (pyReplace (afterLabel "Custo real atual:" line) "R$" "")) <;> rfl
    · rw [if_neg h2]
      by_cases h3 : labelIn "Desvio orçamentário:" line = true
      · rw [if_pos h3]
        cases hp : pyFloat (pyTrim (pyReplace (afterLabel "Desvio orçamentário:" line) "%" "")) <;> rfl
      · rw [if_neg h3]
        by_cases h4 : labelIn "Índice de Desempenho de Custo (CPI):" line = true
        · rw [if_pos h4, h h4]
        · rw [if_neg h4]
          by_cases h5 : labelIn "Valor Agregado (EV):" line = true
          · rw [if_pos h5]
            cases hp : pyFloat (pyTrim (pyReplace (afterLabel "Valor Agregado (EV):" line) "R$" "")) <;> rfl
          · rw [if_neg h5]
            by_cases h6 : labelIn "Estimativa para conclusão:" line = true
            · rw [if_pos h6]
              cases hp : pyFloat (pyTrim (pyReplace (afterLabel "Estimativa para conclusão:" line) "R$" "")) <;> rfl
            · rw [if_neg h6]
              by_cases h7 : labelIn "Estimativa no término (EAC):" line = true
              · rw [if_pos h7]
                cases hp : pyFloat (pyTrim (pyReplace (afterLabel "Estimativa no término (EAC):" line) "R$" "")) <;> rfl
              · rw [if_neg h7]
                by_cases h8 : labelIn "Variação no término (VAC):" line = true
                · rw [if_pos h8]
                  cases hp : pyFloat (pyTrim (pyReplace (afterLabel "Variação no término (VAC):" line) "R$" "")) <;> rfl
                · rw [if_neg h8]

theorem processCostLine_desvio (st : CostStatus) (line : String)
    (h : labelIn "Desvio orçamentário:" line = true →
      pyFloat (pyTrim (pyReplace (afterLabel "Desvio orçamentário:" line) "%" "")) = none) :
    (processCostLine st line).desvio_orcamento = st.desvio_orcamento := by
  unfold processCostLine
  by_cases h1 : labelIn "Orçamento inicial:" line = true
  · rw [if_pos h1]
    cases hp : pyFloat (pyTrim (pyReplace (afterLabel "Orçamento inicial:" line) "R$" "")) <;> rfl
  · rw [if_neg h1]
    by_cases h2 : labelIn "Custo real atual:" line = true
    · rw [if_pos h2]
      cases hp : pyFloat (pyTrim (pyReplace (afterLabel "Custo real atual:" line) "R$" "")) <;> rfl
    · rw [if_neg h2]
      by_cases h3 : labelIn "Desvio orçamentário:" line = true
      · rw [if_pos h3, h h3]
      · rw [if_neg h3]
        by_cases h4 : labelIn "Índice de Desempenho de Custo (CPI):" line = true
        · rw [if_pos h4]
          cases hp : pyFloat (afterLabel "Índice de Desempenho de Custo (CPI):" line) <;> rfl
        · rw [if_neg h4]
          by_cases h5 : labelIn "Valor Agregado (EV):" line = true
          · rw [if_pos h5]
            cases hp : pyFloat (pyTrim (pyReplace (afterLabel "Valor Agregado (EV):" line) "R$" "")) <;> rfl
          · rw [if_neg h5]
            by_cases h6 : labelIn "Estimativa para conclusão:" line = true
            · rw [if_pos h6]
              cases hp : pyFloat (pyTrim (pyReplace (afterLabel "Estimativa para conclusão:" line) "R$" "")) <;> rfl
            · rw [if_neg h6]
              by_cases h7 : labelIn "Estimativa no término (EAC):" line = true
              · rw [if_pos h7]
                cases hp : pyFloat (pyTrim (pyReplace (afterLabel "Estimativa no término (EAC):" line) "R$" "")) <;> rfl
              · rw [if_neg h7]
                by_cases h8 : labelIn "Variação no término (VAC):" line = true
                · rw [if_pos h8]
                  cases hp : pyFloat (pyTrim (pyReplace (afterLabel "Variação no término (VAC):" line) "R$" "")) <;> rfl
                · rw [if_neg h8]

theorem foldl_preserve {α β : Type} (f : β → α → β) (P : β → Prop) :
    ∀ (l : List α) (b : β), (∀ b' a, a ∈ l → P b' → P (f b' a)) → P b →
      P (l.foldl f b) := by
  intro l
  induction l with
  | nil => intro b _ hb; exact hb
  | cons a t ih =>
    intro b hstep hb
    exact ih (f b a) (fun b' x hx => hstep b' x (List.mem_cons_of_mem _ hx))
      (hstep b a (List.mem_cons_self a t) hb)

/-! ### Claim C7 -/

/-- C7.  Label-based status extraction is total — the embedded extractors
are total Lean functions on every input string, the Python `try/except`
around each numeric parse being the `none` branch of `pyFloat`/`pyInt` —
and a line whose label matches but whose value fails numeric parsing
contributes no entry: if every line carrying the label of the field has an
unparsable value, the field is absent from the extracted record.  Stated
for the numeric fields SPI, completion percentage and delay days of the
schedule extractor and CPI and budget deviation of the cost extractor; the
remaining numeric fields are verbatim analogous branches of the same
`if/elif` chains. -/
theorem extraction_drops_unparsable :
    ∀ content : String,
      ((∀ line ∈ pySplitOn content "\n",
          labelIn "Índice de Desempenho de Cronograma (SPI):" line = true →
          pyFloat (afterLabel "Índice de Desempenho de Cronograma (SPI):" line) = none) →
        (extract_schedule_status content).spi = none) ∧
      ((∀ line ∈ pySplitOn content "\n",
          labelIn "Percentual de conclusão:" line = true →
          pyFloat (pyReplace (afterLabel "Percentual de conclusão:" line) "%" "") = none) →
        (extract_schedule_status content).percentual_conclusao = none) ∧
      ((∀ line ∈ pySplitOn content "\n",
          labelIn "Atraso atual:" line = true →
          pyInt ((pySplitOn (afterLabel "Atraso atual:" line) " dias").getD 0 "") = none) →
        (extract_schedule_status content).atraso_dias = none) ∧
      ((∀ line ∈ pySplitOn content "\n",
          labelIn "Índice de Desempenho de Custo (CPI):" line = true →
          pyFloat (afterLabel "Índice de Desempenho de Custo (CPI):" line) = none) →
        (extract_cost_status content).cpi = none) ∧
      ((∀ line ∈ pySplitOn content "\n",
          labelIn "Desvio orçamentário:" line = true →
          pyFloat (pyTrim (pyReplace (afterLabel "Desvio orçamentário:" line) "%" "")) = none) →
        (extract_cost_status content).desvio_orcamento = none) := by
  intro content
  refine ⟨?_, ?_, ?_, ?_, ?_⟩ <;> intro h
  · exact foldl_preserve processScheduleLine (fun s => s.spi = none)
      (pySplitOn content "\n") {}
      (fun b' a ha hb =>
        (processScheduleLine_spi b' a (h a ha)).trans hb) rfl
  · exact foldl_preserve processScheduleLine
      (fun s => s.percentual_conclusao = none) (pySplitOn content "\n") {}
      (fun b' a ha hb =>
        (processScheduleLine_percentual b' a (h a ha)).trans hb) rfl
  · exact foldl_preserve processScheduleLine (fun s => s.atraso_dias = none)
      (pySplitOn content "\n") {}
      (fun b' a ha hb =>
        (processScheduleLine_atraso b' a (h a ha)).trans hb) rfl
  · exact foldl_preserve processCostLine (fun s => s.cpi = none)
      (pySplitOn content "\n") {}
      (fun b' a ha hb => (processCostLine_cpi b' a (h a ha)).trans hb) rfl
  · exact foldl_preserve processCostLine (fun s => s.desvio_orcamento = none)
      (pySplitOn content "\n") {}
      (fun b' a ha hb => (processCostLine_desvio b' a (h a ha)).trans hb) rfl

/-- A report whose labeled numeric lines all carry unparsable values. -/
def contentBad : String :=
  "Índice de Desempenho de Cronograma (SPI): abc\nPercentual de conclusão: vinte%\nAtraso atual: muitos dias\nÍndice de Desempenho de Custo (CPI): xyz\nDesvio orçamentário: n/a"

set_option maxRecDepth 4000 in
/-- Witness for C7: the drop theorem applied to a report whose SPI, CPI,
percentage, delay and deviation values are all unparsable. -/
theorem extraction_drops_unparsable_witness :
    (extract_schedule_status contentBad).spi = none ∧
      (extract_schedule_status contentBad).percentual_conclusao = none ∧
      (extract_schedule_status contentBad).atraso_dias = none ∧
      (extract_cost_status contentBad).cpi = none ∧
      (extract_cost_status contentBad).desvio_orcamento = none :=
  ⟨(extraction_drops_unparsable contentBad).1 (by decide),
    (extraction_drops_unparsable contentBad).2.1 (by decide),
    (extraction_drops_unparsable contentBad).2.2.1 (by decide),
    (extraction_drops_unparsable contentBad).2.2.2.1 (by decide),
    (extraction_drops_unparsable contentBad).2.2.2.2 (by decide)⟩

/-! ## Pattern-based metric extraction
Embedding of `StatusTextProcessor` (`Agentes/nlp_processor.py`): the fixed
regex catalog of `__init__`, `_extract_with_regex` and the `metrics`
mapping of `process_status_file`.  Each regular expression is translated
into an explicit matcher with the engine semantics — leftmost starting
position wins, ordered greedy choice with backtracking for the optional
groups, case-insensitive literal matching.  The spaCy entity extraction
that feeds `project_info` is an external collaborator and is not part of the
metrics mapping.  `_extract_with_regex` converts a numeric capture with
`float(...)`, unguarded: an unconvertible capture (possible only for the
monetary patterns, whose capture class `[\d.,]+` admits digit-free tokens)
raises `ValueError`, modelled by `Except.error` carrying the rejected
string. -/

/-- Case-insensitive literal match: the literal is given lowercase, the
input is folded with `pyLowerChar`; returns the remainder on success. -/
def matchLitIC : List Char → List Char → Option (List Char)
  | [], cs => some cs
  | _ :: _, [] => none
  | l :: ls, c :: cs => if pyLowerChar c = l then matchLitIC ls cs else none

/-- The capture `(\d+(?:[.,]\d{1,2})?)` at the end of a pattern: greedy
digits, then greedily up to two fraction digits after `.` or `,`. -/
def numCapture (cs : List Char) : Option (List Char) :=
  let ds := cs.takeWhile Char.isDigit
  let rest := cs.dropWhile Char.isDigit
  if ds.isEmpty then none
  else
    match rest with
    | p :: r2 =>
      if p = '.' ∨ p = ',' then
        match r2.takeWhile Char.isDigit with
        | [] => some ds
        | [a] => some (ds ++ [p, a])
        | a :: b :: _ => some (ds ++ [p, a, b])
      else some ds
    | [] => some ds

/-- The `SPI`/`CPI` patterns `<lit>(?:\s*[:=-])?\s*(\d+(?:[.,]\d{1,2})?)`
anchored at one position: the optional separator group is tried first, and
on failure anywhere downstream the engine backtracks to skipping it. -/
def idxNumAt (lit : List Char) (cs : List Char) : Option (List Char) :=
  match matchLitIC lit cs with
  | none => none
  | some rest =>
    let wsr := rest.dropWhile isWSChar
    let withSep :=
      match wsr with
      | c :: r2 =>
        if c = ':' ∨ c = '=' ∨ c = '-'
        then numCapture (r2.dropWhile isWSChar) else none
      | [] => none
    match withSep with
    | some cap => some cap
    | none => numCapture wsr

/-- Ordered backtracking choices for `(?:[.,]\d{1,2})?`: two fraction
digits, then one, then the empty match, each with its remainder. -/
def fracChoices (cs : List Char) : List (List Char × List Char) :=
  match cs with
  | p :: r =>
    if p = '.' ∨ p = ',' then
      match r with
      | a :: b :: t =>
        if a.isDigit ∧ b.isDigit then [([p, a, b], t), ([p, a], b :: t), ([], cs)]
        else if a.isDigit then [([p, a], b :: t), ([], cs)]
        else [([], cs)]
      | [a] => if a.isDigit then [([p, a], []), ([], cs)] else [([], cs)]
      | [] => [([], cs)]
    else [([], cs)]
  | [] => [([], cs)]

/-- First successful choice. -/
def firstSome {α : Type} : List (Option α) → Option α
  | [] => none
  | some a :: _ => some a
  | none :: rest => firstSome rest

/-- The alternation `(?:conclu[ií]do|completo|de progresso)`,
case-insensitive. -/
def altConclu (cs : List Char) : Bool :=
  (match matchLitIC "conclu".data cs with
    | some (c :: r2) =>
      decide (pyLowerChar c = 'i' ∨ pyLowerChar c = 'í') &&
        (matchLitIC "do".data r2).isSome
    | _ => false) ||
  (matchLitIC "completo".data cs).isSome ||
  (matchLitIC "de progresso".data cs).isSome

/-- The suffix `\s*%\s*(?:conclu[ií]do|completo|de progresso)` of the
completion pattern. -/
def completionTail (rest : List Char) : Bool :=
  match rest.dropWhile isWSChar with
  | '%' :: r2 => altConclu (r2.dropWhile isWSChar)
  | _ => false

/-- The completion pattern
`(\d{1,3}(?:[.,]\d{1,2})?)\s*%\s*(?:conclu[ií]do|completo|de progresso)`
anchored at one position: digit counts are tried greedily from
`min 3 run` down to 1, fraction choices greedily within each. -/
def completionAt (cs : List Char) : Option (List Char) :=
  let n := min (cs.takeWhile Char.isDigit).length 3
  firstSome ((List.range n).map (fun i =>
    let k := n - i
    let ds := cs.take k
    let rest := cs.drop k
    firstSome ((fracChoices rest).map (fun fc =>
      if completionTail fc.2 then some (ds ++ fc.1) else none))))

/-- The suffix `\s*(\d+)\s*dias?` of the delay pattern. -/
def delayTail (cs : List Char) : Option (List Char) :=
  let r := cs.dropWhile isWSChar
  let ds := r.takeWhile Char.isDigit
  let r2 := r.dropWhile Char.isDigit
  if ds.isEmpty then none
  else if (matchLitIC "dia".data (r2.dropWhile isWSChar)).isSome then some ds
  else none

/-- The delay pattern `atraso(?:\s*de)?\s*(\d+)\s*dias?` anchored at one
position. -/
def delayAt (cs : List Char) : Option (List Char) :=
  match matchLitIC "atraso".data cs with
  | none => none
  | some rest =>
    let withDe :=
      match matchLitIC "de".data (rest.dropWhile isWSChar) with
      | some r2 => delayTail r2
      | none => none
    match withDe with
    | some cap => some cap
    | none => delayTail rest

/-- The monetary suffix `(?:\s*[:=-])?\s*R\$ *([\d.,]+)` shared by the
budget and actual-cost patterns. -/
def moneyTail (cs : List Char) : Option (List Char) :=
  let wsr := cs.dropWhile isWSChar
  let money : List Char → Option (List Char) := fun r =>
    match matchLitIC "r$".data r with
    | none => none
    | some r1 =>
      let r2 := r1.dropWhile (fun c => c = ' ')
      let cap := r2.takeWhile (fun c => c.isDigit || c = '.' || c = ',')
      if cap.isEmpty then none else some cap
  let withSep :=
    match wsr with
    | c :: r2 =>
      if c = ':' ∨ c = '=' ∨ c = '-' then money (r2.dropWhile isWSChar) else none
    | [] => none
  match withSep with
  | some cap => some cap
  | none => money wsr

/-- The budget pattern
`or[çc]amento(?:\s*total)?(?:\s*[:=-])?\s*R\$ *([\d.,]+)` anchored at one
position. -/
def budgetAt (cs : List Char) : Option (List Char) :=
  match matchLitIC "or".data cs with
  | none => none
  | some r1 =>
    match r1 with
    | c :: r2 =>
      if pyLowerChar c = 'ç' ∨ pyLowerChar c = 'c' then
        match matchLitIC "amento".data r2 with
        | none => none
        | some r3 =>
          let withTotal :=
            match matchLitIC "total".data (r3.dropWhile isWSChar) with
            | some r4 => moneyTail r4
            | none => none
          match withTotal with
          | some cap => some cap
          | none => moneyTail r3
      else none
    | [] => none

/-- The actual-cost pattern `custo\s*atual(?:\s*[:=-])?\s*R\$ *([\d.,]+)`
anchored at one position. -/
def actualCostAt (cs : List Char) : Option (List Char) :=
  match matchLitIC "custo".data cs with
  | none => none
  | some r1 =>
    match matchLitIC "atual".data (r1.dropWhile isWSChar) with
    | none => none
    | some r2 => moneyTail r2

/-- `re.search`: try the anchored matcher at every starting position, the
leftmost success winning. -/
def searchAt (f : List Char → Option (List Char)) : List Char → Option (List Char)
  | [] => f []
  | c :: cs =>
    match f (c :: cs) with
    | some cap => some cap
    | none => searchAt f cs

/-- `float(match.group(1).replace(",", "."))` for the numeric patterns,
whose captures always convert. -/
def capToFloat (cap : List Char) : Option ℚ :=
  pyFloat (pyReplace (String.mk cap) "," ".")

/-- `_extract_with_regex(text, "completion_percentage")`. -/
def extractCompletion (text : String) : Option ℚ :=
  match searchAt completionAt text.data with
  | some cap => capToFloat cap
  | none => none

/-- `_extract_with_regex(text, "spi")`. -/
def extractSpi (text : String) : Option ℚ :=
  match searchAt (idxNumAt "spi".data) text.data with
  | some cap => capToFloat cap
  | none => none

/-- `_extract_with_regex(text, "cpi")`. -/
def extractCpi (text : String) : Option ℚ :=
  match searchAt (idxNumAt "cpi".data) text.data with
  | some cap => capToFloat cap
  | none => none

/-- `_extract_with_regex(text, "delay_days")`. -/
def extractDelay (text : String) : Option ℚ :=
  match searchAt delayAt text.data with
  | some cap => capToFloat cap
  | none => none

/-- `_extract_with_regex` for the monetary patterns:
`float(value_str)` on `match.group(1).replace(".", "").replace(",", ".")`
is unguarded, so an unconvertible cleaned capture is a `ValueError`,
modelled as `Except.error` carrying the rejected string. -/
def extractMoney (matcherAt : List Char → Option (List Char))
    (text : String) : Except String (Option ℚ) :=
  match searchAt matcherAt text.data with
  | none => .ok none
  | some cap =>
    let cleaned := pyReplace (pyReplace (String.mk cap) "." "") "," "."
    match pyFloat cleaned with
    | some q => .ok (some q)
    | none => .error cleaned

/-- `_extract_with_regex(text, "budget")`. -/
def extractBudget (text : String) : Except String (Option ℚ) :=
  extractMoney budgetAt text

/-- `_extract_with_regex(text, "actual_cost")`. -/
def extractActualCost (text : String) : Except String (Option ℚ) :=
  extractMoney actualCostAt text

/-- The `scope_change_keywords` entry of the pattern catalog.  These
strings are tested with plain substring membership (`keyword in
text.lower()`), so the character-class brackets are matched literally. -/
def scope_change_keywords : List String :=
  ["mudan[cç]a de escopo", "altera[cç][aã]o de escopo", "escopo alterado"]

/-- The `risk_keywords` entry of the pattern catalog, likewise tested with
plain substring membership. -/
def risk_keywords : List String :=
  ["risco identificado", "novo risco", "amea[cç]a", "problema potencial"]

/-- `any(keyword in text.lower() for keyword in scope_change_keywords)`. -/
def scopeChangeDetected (text : String) : Bool :=
  scope_change_keywords.any fun k => strContains (pyLower text) k

/-- `any(keyword in text.lower() for keyword in risk_keywords)`. -/
def riskDetected (text : String) : Bool :=
  risk_keywords.any fun k => strContains (pyLower text) k

/-- A value of the `metrics` dictionary. -/
inductive MetricValue where
  | num (q : ℚ)
  | boolean (b : Bool)
  deriving DecidableEq, Repr

/-- The `metrics` mapping of `process_status_file` (lines 85-97): the six
numeric extractions, the two keyword booleans, then the final filter
dropping the `None` entries.  The dictionary literal evaluates its values
in key order, so a `ValueError` in the budget conversion propagates before
the actual-cost one. -/
def metricsOf (text : String) : Except String (List (String × MetricValue)) :=
  let completion := extractCompletion text
  let spi := extractSpi text
  let cpi := extractCpi text
  match extractBudget text with
  | .error e => .error e
  | .ok budget =>
    match extractActualCost text with
    | .error e => .error e
    | .ok actual_cost =>
      let delay := extractDelay text
      let sc := scopeChangeDetected text
      let rk := riskDetected text
      .ok (([("completion_percentage", completion.map MetricValue.num),
             ("spi", spi.map MetricValue.num),
             ("cpi", cpi.map MetricValue.num),
             ("budget", budget.map MetricValue.num),
             ("actual_cost", actual_cost.map MetricValue.num),
             ("delay_days", delay.map MetricValue.num),
             ("scope_change_detected", some (MetricValue.boolean sc)),
             ("risk_detected", some (MetricValue.boolean rk))] :
            List (String × Option MetricValue)).filterMap
        (fun kv => kv.2.map (fun v => (kv.1, v))))

/-! ### Claims C9, C10 -/

/-- The end-to-end scenario text of the spec. -/
def textC9 : String := "50% concluído... SPI de 0.85... Atraso de 10 dias"

set_option maxRecDepth 8000 in
/-- C9.  Evaluation of the pattern-based extraction at the spec's
end-to-end scenario text: the completion percentage (50.0) and the delay
(10 days) are extracted as the claim states, and no scope change is
detected; but the SPI pattern
`SPI(?:\s*[:=-])?\s*(\d+(?:[.,]\d{1,2})?)` admits no word between `SPI`
and the number, so `SPI de 0.85` yields no match — `spi` is absent and
classifying the extracted SPI gives `unknown`, not the claimed 0.85 /
`warning`.  The usage example of the module itself (`"SPI de 0.8"`,
`nlp_processor.py` line 109) shows the intended input form, so this is a
defect of the regex rather than of the claim. -/
theorem nlp_scenario_divergence :
    extractCompletion textC9 = some 50 ∧
    extractSpi textC9 = none ∧
    extractDelay textC9 = some 10 ∧
    scopeChangeDetected textC9 = false ∧
    evaluate_schedule_health (extractSpi textC9) = "unknown" := by
  have hc : searchAt completionAt textC9.data = some ['5', '0'] := by decide
  have hs : searchAt (idxNumAt "spi".data) textC9.data = none := by decide
  have hd : searchAt delayAt textC9.data = some ['1', '0'] := by decide
  have hsc : scopeChangeDetected textC9 = false := by decide
  have hfc : pyFloatParse (pyReplace (String.mk ['5', '0']) "," ".") =
      some (false, 50, 0) := by decide
  have hfd : pyFloatParse (pyReplace (String.mk ['1', '0']) "," ".") =
      some (false, 10, 0) := by decide
  have hspi : extractSpi textC9 = none := by simp [extractSpi, hs]
  refine ⟨?_, hspi, ?_, hsc, ?_⟩
  · simp only [extractCompletion, hc, capToFloat, pyFloat, hfc, Option.map_some]
    norm_num
  · simp only [extractDelay, hd, capToFloat, pyFloat, hfd, Option.map_some]
    norm_num
  · rw [hspi]
    rfl

theorem mem_filterMap_entries (k : String) (v : MetricValue) :
    ∀ l : List (String × Option MetricValue),
      (k, some v) ∈ l →
      (k, v) ∈ l.filterMap (fun kv => kv.2.map (fun u => (kv.1, u))) := by
  intro l
  induction l with
  | nil => intro h; cases h
  | cons a t ih =>
    intro h
    rcases List.mem_cons.mp h with heq | ht
    · rw [← heq]
      simp [List.filterMap_cons]
    · cases hfa : (a.2.map fun u => (a.1, u)) with
      | none => simpa [List.filterMap_cons, hfa] using ih ht
      | some b =>
        simp only [List.filterMap_cons, hfa, List.mem_cons]
        exact Or.inr (ih ht)

set_option maxRecDepth 8000 in
/-- C10 counterexample.  The claim asserts the boolean keys are always
present in the returned metrics mapping for every readable input text;
but on `"orçamento: R$ ,,"` the budget pattern captures `",,"`, the
cleanup turns it into `".."`, and the unguarded `float(value_str)` raises
`ValueError` (modelled by `Except.error` carrying the rejected string), so
no mapping is returned at all. -/
theorem metrics_booleans_counterexample :
    metricsOf "orçamento: R$ ,," = Except.error ".." ∧
      ¬ ∃ ms : List (String × MetricValue),
        metricsOf "orçamento: R$ ,," = Except.ok ms := by
  have h : metricsOf "orçamento: R$ ,," = Except.error ".." := by decide
  refine ⟨h, ?_⟩
  rintro ⟨ms, hms⟩
  rw [h] at hms
  cases hms

/-- C10 as amended.  Whenever the metrics construction of `process_status_file`
returns a mapping (that is, the unguarded monetary `float` conversions do
not raise), the boolean keys `scope_change_detected` and `risk_detected`
are present with their computed truth values: the final `None`-filter
removes only the numeric fields whose regex failed to match, never the
booleans. -/
theorem metrics_booleans_present :
    ∀ (text : String) (ms : List (String × MetricValue)),
      metricsOf text = Except.ok ms →
      ("scope_change_detected",
          MetricValue.boolean (scopeChangeDetected text)) ∈ ms ∧
        ("risk_detected", MetricValue.boolean (riskDetected text)) ∈ ms := by
  intro text ms h
  simp only [metricsOf] at h
  cases hb : extractBudget text with
  | error e => rw [hb] at h; simp at h
  | ok budget =>
    rw [hb] at h
    cases ha : extractActualCost text with
    | error e => rw [ha] at h; simp at h
    | ok actual_cost =>
      rw [ha] at h
      simp only [Except.ok.injEq] at h
      subst h
      constructor
      · exact mem_filterMap_entries _ _ _ (by simp)
      · exact mem_filterMap_entries _ _ _ (by simp)

set_option maxRecDepth 8000 in
/-- Witness for the amended C10: on the text `"abc"` the mapping is
returned and consists exactly of the two boolean entries. -/
theorem metrics_booleans_present_witness :
    ("scope_change_detected",
        MetricValue.boolean (scopeChangeDetected "abc")) ∈
      ([("scope_change_detected", MetricValue.boolean false),
        ("risk_detected", MetricValue.boolean false)] :
        List (String × MetricValue)) ∧
      ("risk_detected", MetricValue.boolean (riskDetected "abc")) ∈
        ([("scope_change_detected", MetricValue.boolean false),
          ("risk_detected", MetricValue.boolean false)] :
          List (String × MetricValue)) :=
  metrics_booleans_present "abc" _ (by decide)
